import Mathlib

/-!
Shallow embedding of the operation registry and async-dispatch layer
(PlexilInterface.cpp) and of the telemetry / fault-classification layer
(OwInterface.cpp) of the ow_autonomy adapter, with theorems settling the
behavioural claims about them.

Conventions of the embedding:
* `std::map<string,int>` becomes a function `String → Option Int`
  (`none` = key absent); `std::map::at` on an absent key, which throws
  `std::out_of_range` in C++, becomes `Except.error`.
* `std::set<string>` becomes a decidable membership function `String → Bool`.
* Side effects (ROS log calls, `publish` fact emissions, the command-status
  callback, and the state assignment itself) are recorded as an `Action`
  list in the order the C++ statements execute.
* `double` is embedded as `ℚ`; the comparisons the code performs on the
  relevant concrete values are exact in either representation.
-/

namespace OwAuto

/-- Observable side effects of the embedded code, in program order.
`setState` records an assignment to the registry's per-name entry, `pub`
a three-argument `publish` of a boolean fact, `pubNum` a two-argument
`publish` of a numeric fact, `warnLog`/`errorLog` the ROS log calls, and
`notify` an invocation of the command-status callback. -/
inductive Action where
  | setState (name : String) (id : Int)
  | pub (key : String) (value : Bool) (name : String)
  | pubNum (key : String) (value : ℚ)
  | warnLog (msg : String)
  | errorLog (msg : String)
  | notify (id : Int) (success : Bool)
deriving DecidableEq

/-- Dummy operation ID that signifies idle lander operation (`IDLE_ID`). -/
def IDLE_ID : Int := -1

/-- The registry `m_runningOperations : std::map<string,int>` embedded as a
partial map from operation name to operation id. -/
def Registry := String → Option Int

/-- Assignment `m[name] = v` on a `std::map` (insert-or-assign). -/
def Registry.set (r : Registry) (name : String) (v : Int) : Registry :=
  fun m => if m = name then some v else r m

/-- Embedding of `PlexilInterface::isLanderOperation`. -/
def isLanderOperation (r : Registry) (name : String) : Bool :=
  (r name).isSome

/-- Embedding of `PlexilInterface::markOperationRunning`.  Returns the C++
return value, the registry after the call, and the recorded actions; an
absent name makes `m_runningOperations.at` throw `std::out_of_range`,
embedded as `Except.error`. -/
def markOperationRunning (r : Registry) (name : String) (id : Int) :
    Except String (Bool × Registry × List Action) :=
  match r name with
  | none => .error "map::at: out_of_range"
  | some cur =>
    if cur ≠ IDLE_ID then
      .ok (false, r, [.warnLog (name ++ " already running, ignoring duplicate request.")])
    else
      .ok (true, Registry.set r name id,
           [.setState name id, .pub "Running" true name])

/-- Embedding of the condition of the warning branch in
`PlexilInterface::markOperationFinished`: the C++ source reads
`! m_runningOperations.at (name) == IDLE_ID`, in which `!` binds before
`==`, so the `int` entry is first collapsed to `0` or `1` by logical
negation and that value is then compared with `IDLE_ID`. -/
def finishedWarnCheck (cur : Int) : Bool :=
  decide ((if cur = 0 then (1 : Int) else 0) = IDLE_ID)

/-- Embedding of `PlexilInterface::markOperationFinished`: optional warning,
assignment of `IDLE_ID`, publication of `Running=false` and `Finished=true`,
and, when `id` differs from `IDLE_ID`, invocation of the command-status
callback with `(id, true)`. -/
def markOperationFinished (r : Registry) (name : String) (id : Int) :
    Except String (Registry × List Action) :=
  match r name with
  | none => .error "map::at: out_of_range"
  | some cur =>
    .ok (Registry.set r name IDLE_ID,
         (if finishedWarnCheck cur then
            [Action.warnLog (name ++ " was not running. Should never happen.")]
          else [])
         ++ [.setState name IDLE_ID, .pub "Running" false name, .pub "Finished" true name]
         ++ (if id ≠ IDLE_ID then [.notify id true] else []))

/-- Embedding of `PlexilInterface::operationRunning` (the body of
`isRunning`): compares the entry with `IDLE_ID`; an absent name throws. -/
def operationRunning (r : Registry) (name : String) : Except String Bool :=
  match r name with
  | none => .error "map::at: out_of_range"
  | some cur => .ok (decide (cur ≠ IDLE_ID))

/-- Embedding of `PlexilInterface::registerLanderOperation`:
`m_runningOperations[name] = IDLE_ID` inserts the name or overwrites an
existing entry with `IDLE_ID`. -/
def registerLanderOperation (r : Registry) (name : String) : Registry :=
  Registry.set r name IDLE_ID

/-- Modelled from the spec: the completion step of the async dispatcher
(§4.2, steps 2b–2c).  The dispatcher template (`runAction`) is present in
`PlexilInterface.cpp` only as a commented-out fragment; its done-callback
invokes `markOperationFinished (name, id)`, so the invocation outcome,
although available to the execution unit, is not an argument of the source
completion routine and cannot reach the notifier. -/
def completeDispatch (r : Registry) (name : String) (id : Int)
    (outcomeSuccess : Bool) : Except String (Registry × List Action) :=
  markOperationFinished r name id

/-- Selector for notifier invocations among recorded actions. -/
def isNotify : Action → Bool
  | .notify _ _ => true
  | _ => false

/-- Modelled from the spec: one full dispatch of an operation (§4.2).  The
dispatcher (`runAction`) is only a commented-out template in the source, so
the composition — `markOperationRunning`, then the blocking invocation,
then `markOperationFinished` on the registry the begin step produced — is
taken from the spec; the actions of each step come from the source
embeddings above and are concatenated in execution order. -/
def dispatchTrace (r : Registry) (name : String) (id : Int) : List Action :=
  match markOperationRunning r name id with
  | .error _ => []
  | .ok (false, _, acts) => acts
  | .ok (true, r2, acts) =>
    match markOperationFinished r2 name id with
    | .error _ => acts
    | .ok (_, acts2) => acts ++ acts2

/-- Registry holding the single operation `"Dig"` in the idle state. -/
def regDig : Registry := fun m => if m = "Dig" then some IDLE_ID else none

/-- Registry holding the single operation `"Dig"`, running with id 42. -/
def regDigRun : Registry := fun m => if m = "Dig" then some 42 else none

/-- The empty registry. -/
def emptyReg : Registry := fun _ => none

/-- The eight joints of `enum class Joint` used by the joint maps. -/
inductive Joint where
  | shoulder_yaw
  | shoulder_pitch
  | proximal_pitch
  | distal_pitch
  | hand_yaw
  | scoop_yaw
  | antenna_pan
  | antenna_tilt
deriving DecidableEq, Fintype

/-- Per-joint static properties, as in `JointProperties`: ROS name, PLEXIL
name, soft torque limit, hard torque limit. -/
structure JointProperties where
  rosName : String
  plexilName : String
  softTorqueLimit : ℚ
  hardTorqueLimit : ℚ
deriving DecidableEq

/-- Embedding of the static `JointMap` from ROS `JointStates` message names
to joints. -/
def JointMap (s : String) : Option Joint :=
  if s = "j_shou_yaw" then some .shoulder_yaw
  else if s = "j_shou_pitch" then some .shoulder_pitch
  else if s = "j_prox_pitch" then some .proximal_pitch
  else if s = "j_dist_pitch" then some .distal_pitch
  else if s = "j_hand_yaw" then some .hand_yaw
  else if s = "j_scoop_yaw" then some .scoop_yaw
  else if s = "j_ant_pan" then some .antenna_pan
  else if s = "j_ant_tilt" then some .antenna_tilt
  else none

/-- Embedding of the static `JointPropMap`. -/
def JointPropMap : Joint → JointProperties
  | .shoulder_yaw => ⟨"j_shou_yaw", "ShoulderYaw", 60, 80⟩
  | .shoulder_pitch => ⟨"j_shou_pitch", "ShoulderPitch", 60, 80⟩
  | .proximal_pitch => ⟨"j_prox_pitch", "ProximalPitch", 60, 80⟩
  | .distal_pitch => ⟨"j_dist_pitch", "DistalPitch", 60, 80⟩
  | .hand_yaw => ⟨"j_hand_yaw", "HandYaw", 60, 80⟩
  | .scoop_yaw => ⟨"j_scoop_yaw", "ScoopYaw", 60, 80⟩
  | .antenna_pan => ⟨"j_ant_pan", "AntennaPan", 30, 30⟩
  | .antenna_tilt => ⟨"j_ant_tilt", "AntennaTilt", 30, 30⟩

/-- Membership function embedding of `std::set<string>`. -/
def SSet := String → Bool

/-- Insertion into an embedded string set. -/
def SSet.insert (s : SSet) (x : String) : SSet :=
  fun q => if q = x then true else s q

/-- Erasure from an embedded string set. -/
def SSet.erase (s : SSet) (x : String) : SSet :=
  fun q => if q = x then false else s q

/-- The empty embedded string set. -/
def SSet.empty : SSet := fun _ => false

/-- The pair of global fault sets `JointsAtHardTorqueLimit` and
`JointsAtSoftTorqueLimit`. -/
structure TorqueState where
  hard : SSet
  soft : SSet

/-- Magnitude function, embedding the C `abs` applied to the effort. -/
def cAbs (x : ℚ) : ℚ := if x < 0 then -x else x

/-- Embedding of `handle_overtorque`: inserts the joint's PLEXIL name into
the hard set when `|effort|` reaches the hard limit, otherwise into the
soft set when it reaches the soft limit, and otherwise erases the name from
both sets. -/
def handle_overtorque (s : TorqueState) (joint : Joint) (effort : ℚ) :
    TorqueState :=
  if cAbs effort ≥ (JointPropMap joint).hardTorqueLimit then
    ⟨s.hard.insert (JointPropMap joint).plexilName, s.soft⟩
  else if cAbs effort ≥ (JointPropMap joint).softTorqueLimit then
    ⟨s.hard, s.soft.insert (JointPropMap joint).plexilName⟩
  else
    ⟨s.hard.erase (JointPropMap joint).plexilName,
     s.soft.erase (JointPropMap joint).plexilName⟩

/-- Severity tier of a sample, named after the decision structure of
`handle_overtorque`. -/
inductive Tier where
  | Hard
  | Soft
  | Nominal
deriving DecidableEq

/-- The classification decision of `handle_overtorque`, as a pure
function. -/
def classify (joint : Joint) (effort : ℚ) : Tier :=
  if cAbs effort ≥ (JointPropMap joint).hardTorqueLimit then .Hard
  else if cAbs effort ≥ (JointPropMap joint).softTorqueLimit then .Soft
  else .Nominal

/-- Embedding of `handle_joint_fault`: the only fault handled is
overtorque, and only the effort component of the sample is passed on. -/
def handle_joint_fault (s : TorqueState) (joint : Joint) (effort : ℚ) :
    TorqueState :=
  handle_overtorque s joint effort

/-- One `JointTelemetry` record: the latest position, velocity and effort
of a joint. -/
structure JointTelemetry where
  position : ℚ
  velocity : ℚ
  effort : ℚ
deriving DecidableEq

/-- The telemetry-side mutable state: `JointTelemetryMap` together with the
two torque fault sets. -/
structure TelemetryState where
  telem : Joint → JointTelemetry
  torque : TorqueState

/-- Embedding of one iteration of the loop body of
`OwInterface::jointStatesCallback` for a single `(name, position, velocity,
effort)` entry: a known joint has its telemetry overwritten, its three raw
values published and its fault handled; an unknown name is logged as an
error and dropped with no state change and no publication. -/
def jointStateSample (ts : TelemetryState) (rosName : String)
    (position velocity effort : ℚ) : TelemetryState × List Action :=
  match JointMap rosName with
  | some joint =>
    (⟨fun q => if q = joint then ⟨position, velocity, effort⟩ else ts.telem q,
      handle_joint_fault ts.torque joint effort⟩,
     [.pubNum ((JointPropMap joint).plexilName ++ "Velocity") velocity,
      .pubNum ((JointPropMap joint).plexilName ++ "Effort") effort,
      .pubNum ((JointPropMap joint).plexilName ++ "Position") position])
  | none => (ts, [.errorLog ("jointStatesCallback: unsupported joint " ++ rosName)])

/-- The empty torque fault state. -/
def torque0 : TorqueState := ⟨SSet.empty, SSet.empty⟩

/-- An initial telemetry state: all-zero samples and empty fault sets. -/
def telemetry0 : TelemetryState := ⟨fun _ => ⟨0, 0, 0⟩, torque0⟩

theorem registrySet_same (r : Registry) (name : String) (v : Int) :
    Registry.set r name v name = some v := by
  simp [Registry.set]

theorem registrySet_other (r : Registry) (name m : String) (v : Int)
    (h : m ≠ name) : Registry.set r name v m = r m := by
  simp [Registry.set, h]

theorem finishedWarnCheck_false (cur : Int) : finishedWarnCheck cur = false := by
  unfold finishedWarnCheck IDLE_ID
  by_cases h : cur = 0 <;> simp [h]

/-- C1 (counterexample): `markOperationRunning` called with the sentinel
correlation id `IDLE_ID = -1` on the idle operation `"Dig"` returns `true`,
yet `operationRunning` on the resulting registry reports `false`, because
the recorded id is indistinguishable from the idle marker.  This refutes
the claim that after every successful `tryBegin(N, id)` the operation is
running. -/
theorem markOperationRunning_sentinel_cex :
    markOperationRunning regDig "Dig" (-1) =
      .ok (true, Registry.set regDig "Dig" (-1),
           [.setState "Dig" (-1), .pub "Running" true "Dig"]) ∧
    operationRunning (Registry.set regDig "Dig" (-1)) "Dig" = .ok false :=
  ⟨rfl, rfl⟩

/-- C1 (amended): for a registered operation and a correlation id other
than the sentinel `IDLE_ID`, `markOperationRunning` returns `false` with
the registry unchanged (only a warning logged) when the operation is
already running; otherwise it records the id, publishes `Running=true` and
returns `true`, after which `operationRunning` reports `true`, keeps
reporting `true` across any further `markOperationRunning` call and any
`markOperationFinished` on a different name, and reports `false` once
`markOperationFinished` runs on this name. -/
theorem markOperationRunning_lifecycle (r : Registry) (name : String)
    (id cur : Int) (hreg : r name = some cur) (hid : id ≠ IDLE_ID) :
    (cur ≠ IDLE_ID →
      markOperationRunning r name id =
        .ok (false, r,
             [.warnLog (name ++ " already running, ignoring duplicate request.")])) ∧
    (cur = IDLE_ID →
      markOperationRunning r name id =
        .ok (true, Registry.set r name id,
             [.setState name id, .pub "Running" true name]) ∧
      operationRunning (Registry.set r name id) name = .ok true ∧
      (∀ n2 i2 b r2 acts,
        markOperationRunning (Registry.set r name id) n2 i2 = .ok (b, r2, acts) →
        operationRunning r2 name = .ok true) ∧
      (∀ n2 i2 r2 acts, n2 ≠ name →
        markOperationFinished (Registry.set r name id) n2 i2 = .ok (r2, acts) →
        operationRunning r2 name = .ok true) ∧
      (∀ i2 r2 acts,
        markOperationFinished (Registry.set r name id) name i2 = .ok (r2, acts) →
        operationRunning r2 name = .ok false)) := by
  constructor
  · intro hcur
    simp [markOperationRunning, hreg, hcur]
  · intro hcur
    subst hcur
    refine ⟨by simp [markOperationRunning, hreg], ?_, ?_, ?_, ?_⟩
    · simp [operationRunning, registrySet_same, hid]
    · intro n2 i2 b r2 acts h
      unfold markOperationRunning at h
      cases hr : Registry.set r name id n2 with
      | none => simp [hr] at h
      | some c2 =>
        rw [hr] at h
        by_cases hc : c2 ≠ IDLE_ID
        · simp [hc] at h
          rw [← h.2.1]
          simp [operationRunning, registrySet_same, hid]
        · simp [hc] at h
          by_cases hn : n2 = name
          · subst hn
            rw [registrySet_same] at hr
            cases hr
            simp at hc
            exact absurd hc hid
          · rw [← h.2.1]
            unfold operationRunning
            rw [registrySet_other _ _ _ _ (Ne.symm hn), registrySet_same]
            simp [hid]
    · intro n2 i2 r2 acts hn2 h
      unfold markOperationFinished at h
      cases hr : Registry.set r name id n2 with
      | none => simp [hr] at h
      | some c2 =>
        rw [hr] at h
        simp at h
        rw [← h.1]
        unfold operationRunning
        rw [registrySet_other _ _ _ _ (Ne.symm hn2), registrySet_same]
        simp [hid]
    · intro i2 r2 acts h
      unfold markOperationFinished at h
      rw [registrySet_same] at h
      simp at h
      rw [← h.1]
      unfold operationRunning
      rw [registrySet_same]
      simp

/-- C1 (witness): the amended lifecycle theorem applied to the concrete
idle registry `regDig` with correlation id 42. -/
theorem markOperationRunning_lifecycle_witness :
    markOperationRunning regDig "Dig" 42 =
      .ok (true, Registry.set regDig "Dig" 42,
           [.setState "Dig" 42, .pub "Running" true "Dig"]) ∧
    operationRunning (Registry.set regDig "Dig" 42) "Dig" = .ok true := by
  have h := (markOperationRunning_lifecycle regDig "Dig" 42 IDLE_ID rfl
    (by decide)).2 rfl
  exact ⟨h.1, h.2.1⟩

/-- C2: `markOperationFinished` on the idle operation `"Dig"` forces the
state to `IDLE_ID` as the claim says, but the `InvariantViolation` warning
the claim requires is never logged: in the source condition
`! m_runningOperations.at (name) == IDLE_ID` the negation binds first, so
the comparison is between `0` or `1` and `-1` and is false for every entry
value.  The first conjunct shows the warning guard is unsatisfiable; the
rest evaluates the call on an already-idle operation, whose action list
contains no `warnLog`. -/
theorem markOperationFinished_warning_dead :
    (∀ cur : Int, finishedWarnCheck cur = false) ∧
    markOperationFinished regDig "Dig" 5 =
      .ok (Registry.set regDig "Dig" IDLE_ID,
           [.setState "Dig" IDLE_ID, .pub "Running" false "Dig",
            .pub "Finished" true "Dig", .notify 5 true]) ∧
    operationRunning regDig "Dig" = .ok false :=
  ⟨finishedWarnCheck_false, rfl, rfl⟩

/-- C2 (witness): the dead-warning theorem instantiated at the already-idle
entry value `IDLE_ID` itself. -/
theorem markOperationFinished_warning_dead_witness :
    finishedWarnCheck IDLE_ID = false :=
  markOperationFinished_warning_dead.1 IDLE_ID

/-- C3 (counterexample): completing the dispatch of the running operation
`"Dig"` (correlation id 42) with a failure outcome still invokes the
notifier with `(42, true)`: the success flag delivered is the literal
`true` of the source, not the outcome's flag. -/
theorem completeDispatch_failure_cex :
    completeDispatch regDigRun "Dig" 42 false =
      .ok (Registry.set regDigRun "Dig" IDLE_ID,
           [.setState "Dig" IDLE_ID, .pub "Running" false "Dig",
            .pub "Finished" true "Dig", .notify 42 true]) ∧
    Action.notify 42 false ∉
      [Action.setState "Dig" IDLE_ID, Action.pub "Running" false "Dig",
       Action.pub "Finished" true "Dig", Action.notify 42 true] :=
  ⟨rfl, by decide⟩

/-- C3 (amended): for every registered operation, the completion step
invokes the notifier exactly once with the given correlation id and the
constant flag `true`, regardless of the invocation outcome, and does not
invoke it at all when the correlation id is the sentinel `IDLE_ID`. -/
theorem completeDispatch_notify (r : Registry) (name : String)
    (id cur : Int) (success : Bool) (hreg : r name = some cur) :
    (completeDispatch r name id success).map (fun p => p.2.filter isNotify) =
      .ok (if id = IDLE_ID then [] else [Action.notify id true]) := by
  unfold completeDispatch markOperationFinished
  rw [hreg]
  by_cases hid : id = IDLE_ID <;>
    simp [finishedWarnCheck_false, Except.map, hid, isNotify, List.filter]

/-- C3 (witness): the notifier result of completing `"Dig"` (running with
id 42) with correlation id 7 and a successful outcome. -/
theorem completeDispatch_notify_witness :
    (completeDispatch regDigRun "Dig" 7 true).map
        (fun p => p.2.filter isNotify) = .ok [Action.notify 7 true] := by
  have h := completeDispatch_notify regDigRun "Dig" 7 42 true rfl
  simpa [IDLE_ID] using h

/-- C4: the fault tier is a function of the effort's magnitude only
(samples with equal `cAbs` classify identically) and follows the code's
chain — `Hard` when the magnitude reaches the hard limit, otherwise `Soft`
when it reaches the soft limit, otherwise `Nominal`; for `shoulder_yaw`
(soft 60, hard 80) effort 59 is nominal, 60 and 79.9 are soft, 80 and -85
are hard, and a sample with effort 10 leaves the joint in neither fault
set; finally `handle_overtorque` updates the sets exactly according to the
tier. -/
theorem handle_overtorque_tiering :
    (∀ j e1 e2, cAbs e1 = cAbs e2 → classify j e1 = classify j e2) ∧
    (∀ j e, cAbs e ≥ (JointPropMap j).hardTorqueLimit → classify j e = .Hard) ∧
    (∀ j e, cAbs e < (JointPropMap j).hardTorqueLimit →
      cAbs e ≥ (JointPropMap j).softTorqueLimit → classify j e = .Soft) ∧
    (∀ j e, cAbs e < (JointPropMap j).softTorqueLimit → classify j e = .Nominal) ∧
    classify .shoulder_yaw 59 = .Nominal ∧
    classify .shoulder_yaw 60 = .Soft ∧
    classify .shoulder_yaw (799 / 10) = .Soft ∧
    classify .shoulder_yaw 80 = .Hard ∧
    classify .shoulder_yaw (-85) = .Hard ∧
    (∀ s : TorqueState,
      (handle_overtorque s .shoulder_yaw 10).hard "ShoulderYaw" = false ∧
      (handle_overtorque s .shoulder_yaw 10).soft "ShoulderYaw" = false) ∧
    (∀ s j e, handle_overtorque s j e =
      match classify j e with
      | .Hard => ⟨s.hard.insert (JointPropMap j).plexilName, s.soft⟩
      | .Soft => ⟨s.hard, s.soft.insert (JointPropMap j).plexilName⟩
      | .Nominal => ⟨s.hard.erase (JointPropMap j).plexilName,
                     s.soft.erase (JointPropMap j).plexilName⟩) := by
  refine ⟨?_, ?_, ?_, ?_, by decide, by decide, ?_, by decide, by decide, ?_, ?_⟩
  · intro j e1 e2 h
    unfold classify
    rw [h]
  · intro j e h
    simp [classify, h]
  · intro j e h1 h2
    simp [classify, not_le.mpr h1, h2]
  · intro j e h
    have h2 : ¬ cAbs e ≥ (JointPropMap j).hardTorqueLimit := by
      have hsh : (JointPropMap j).softTorqueLimit ≤ (JointPropMap j).hardTorqueLimit := by
        cases j <;> norm_num [JointPropMap]
      exact not_le.mpr (lt_of_lt_of_le h hsh)
    simp [classify, h2, not_le.mpr h]
  · norm_num [classify, cAbs, JointPropMap]
  · intro s
    constructor <;>
      norm_num [handle_overtorque, cAbs, JointPropMap, SSet.erase]
  · intro s j e
    unfold handle_overtorque classify
    by_cases h1 : cAbs e ≥ (JointPropMap j).hardTorqueLimit
    · simp [h1]
    · by_cases h2 : cAbs e ≥ (JointPropMap j).softTorqueLimit <;> simp [h1, h2]

/-- C4 (witness): magnitude-only classification applied at efforts -60 and
60 of `shoulder_yaw`, and the soft-tier rule applied at effort 60. -/
theorem handle_overtorque_tiering_witness :
    classify .shoulder_yaw (-60) = classify .shoulder_yaw 60 ∧
    classify .shoulder_yaw 60 = .Soft :=
  ⟨handle_overtorque_tiering.1 .shoulder_yaw (-60) 60 (by norm_num [cAbs]),
   handle_overtorque_tiering.2.2.1 .shoulder_yaw 60 (by norm_num [cAbs, JointPropMap])
     (by norm_num [cAbs, JointPropMap])⟩

/-- C5 (counterexample): ingesting effort 60 (soft) and then 85 (hard) for
`shoulder_yaw` leaves `"ShoulderYaw"` in both fault sets simultaneously —
the hard branch of `handle_overtorque` does not erase the joint from the
soft set, so the disjointness invariant fails. -/
theorem fault_sets_not_disjoint_cex :
    (handle_overtorque (handle_overtorque torque0 .shoulder_yaw 60)
        .shoulder_yaw 85).hard "ShoulderYaw" = true ∧
    (handle_overtorque (handle_overtorque torque0 .shoulder_yaw 60)
        .shoulder_yaw 85).soft "ShoulderYaw" = true :=
  ⟨rfl, rfl⟩

/-- C5 (amended): a `Hard` sample ensures the joint is in the hard set but
leaves the soft set untouched, a `Soft` sample ensures it is in the soft
set but leaves the hard set untouched, and a `Nominal` sample removes it
from both; the two sets therefore need not stay disjoint. -/
theorem handle_overtorque_membership (s : TorqueState) (j : Joint) (e : ℚ) :
    (classify j e = .Hard →
      (handle_overtorque s j e).hard ((JointPropMap j).plexilName) = true ∧
      (handle_overtorque s j e).soft = s.soft) ∧
    (classify j e = .Soft →
      (handle_overtorque s j e).soft ((JointPropMap j).plexilName) = true ∧
      (handle_overtorque s j e).hard = s.hard) ∧
    (classify j e = .Nominal →
      (handle_overtorque s j e).hard ((JointPropMap j).plexilName) = false ∧
      (handle_overtorque s j e).soft ((JointPropMap j).plexilName) = false) := by
  by_cases h1 : cAbs e ≥ (JointPropMap j).hardTorqueLimit
  · simp [classify, handle_overtorque, h1, SSet.insert]
  · by_cases h2 : cAbs e ≥ (JointPropMap j).softTorqueLimit <;>
      simp [classify, handle_overtorque, h1, h2, SSet.insert, SSet.erase]

/-- C5 (witness): the membership theorem applied to the empty fault state
at the hard sample 85 of `shoulder_yaw`. -/
theorem handle_overtorque_membership_witness :
    (handle_overtorque torque0 .shoulder_yaw 85).hard
      ((JointPropMap .shoulder_yaw).plexilName) = true ∧
    (handle_overtorque torque0 .shoulder_yaw 85).soft = torque0.soft :=
  (handle_overtorque_membership torque0 .shoulder_yaw 85).1 (by decide)

/-- C6: for a dispatched operation (registered, idle, non-sentinel
correlation id) the recorded trace is exactly: state set to the id,
`Running=true`, state set back to `IDLE_ID`, `Running=false`,
`Finished=true`, notifier — so `Running=true` strictly precedes
`Running=false`, which strictly precedes `Finished=true`, and the notifier
fires only after the state assignment back to idle. -/
theorem dispatchTrace_ordering (r : Registry) (name : String) (id : Int)
    (hreg : r name = some IDLE_ID) (hid : id ≠ IDLE_ID) :
    dispatchTrace r name id =
      [.setState name id, .pub "Running" true name,
       .setState name IDLE_ID, .pub "Running" false name,
       .pub "Finished" true name, .notify id true] ∧
    (dispatchTrace r name id).get? 1 = some (.pub "Running" true name) ∧
    (dispatchTrace r name id).get? 3 = some (.pub "Running" false name) ∧
    (dispatchTrace r name id).get? 4 = some (.pub "Finished" true name) ∧
    (dispatchTrace r name id).get? 2 = some (.setState name IDLE_ID) ∧
    (dispatchTrace r name id).get? 5 = some (.notify id true) := by
  have h : dispatchTrace r name id =
      [.setState name id, .pub "Running" true name,
       .setState name IDLE_ID, .pub "Running" false name,
       .pub "Finished" true name, .notify id true] := by
    simp [dispatchTrace, markOperationRunning, hreg, markOperationFinished,
      registrySet_same, finishedWarnCheck_false, hid]
  rw [h]
  exact ⟨rfl, rfl, rfl, rfl, rfl, rfl⟩

/-- C6 (witness): the ordered trace of dispatching the idle operation
`"Dig"` with correlation id 42. -/
theorem dispatchTrace_ordering_witness :
    dispatchTrace regDig "Dig" 42 =
      [.setState "Dig" 42, .pub "Running" true "Dig",
       .setState "Dig" IDLE_ID, .pub "Running" false "Dig",
       .pub "Finished" true "Dig", .notify 42 true] :=
  (dispatchTrace_ordering regDig "Dig" 42 rfl (by decide)).1

/-- C7 (counterexample): `"Dig"` is running with id 42 in `regDigRun`, yet
a second `registerLanderOperation "Dig"` silently overwrites the entry with
`IDLE_ID`: no `DuplicateNameError` exists in the source (`operator[]`
insert-or-assign) and the already-registered operation's state is altered,
refuting the claim. -/
theorem registerLanderOperation_cex :
    operationRunning regDigRun "Dig" = .ok true ∧
    operationRunning (registerLanderOperation regDigRun "Dig") "Dig" = .ok false :=
  ⟨rfl, rfl⟩

/-- C7 (amended): `registerLanderOperation` never fails; it maps the given
name to `IDLE_ID` whether or not it was registered before — discarding any
Running state — and leaves every other name's entry unchanged. -/
theorem registerLanderOperation_spec (r : Registry) (name n2 : String) :
    registerLanderOperation r name name = some IDLE_ID ∧
    (n2 ≠ name → registerLanderOperation r name n2 = r n2) :=
  ⟨registrySet_same r name IDLE_ID,
   fun h => registrySet_other r name n2 IDLE_ID h⟩

/-- C7 (witness): registering `"Dig"` in the empty registry maps `"Dig"` to
`IDLE_ID` and leaves `"Tilt"` unregistered. -/
theorem registerLanderOperation_spec_witness :
    registerLanderOperation emptyReg "Dig" "Dig" = some IDLE_ID ∧
    registerLanderOperation emptyReg "Dig" "Tilt" = emptyReg "Tilt" :=
  ⟨(registerLanderOperation_spec emptyReg "Dig" "Tilt").1,
   (registerLanderOperation_spec emptyReg "Dig" "Tilt").2 (by decide)⟩

/-- C8 (counterexample): a lifecycle call on the unregistered name
`"NoSuchOp"` is not a handled no-op returning through the normal path — it
is the `std::out_of_range` exception that `std::map::at` throws, which
propagates out of `markOperationRunning`, refuting the claim that no
exception crosses the interface. -/
theorem unknownOperation_throws_cex :
    markOperationRunning emptyReg "NoSuchOp" 1 = .error "map::at: out_of_range" :=
  rfl

/-- C8 (amended): for an unregistered operation name every lifecycle entry
point propagates the `out_of_range` exception of `std::map::at`, with no
state mutation and no fact emission; an unknown channel name on ingestion
is handled in place — an error is logged, the sample is dropped, the state
is unchanged and nothing is published. -/
theorem unknown_identifier_handling :
    (∀ (r : Registry) (name : String) (id : Int), r name = none →
      markOperationRunning r name id = .error "map::at: out_of_range" ∧
      markOperationFinished r name id = .error "map::at: out_of_range" ∧
      operationRunning r name = .error "map::at: out_of_range") ∧
    (∀ (ts : TelemetryState) (rosName : String) (p v e : ℚ),
      JointMap rosName = none →
      jointStateSample ts rosName p v e =
        (ts, [.errorLog ("jointStatesCallback: unsupported joint " ++ rosName)])) := by
  constructor
  · intro r name id h
    refine ⟨?_, ?_, ?_⟩ <;>
      simp [markOperationRunning, markOperationFinished, operationRunning, h]
  · intro ts rosName p v e h
    simp [jointStateSample, h]

/-- C8 (witness): the handling theorem applied to `"Grind"` on the empty
registry and to the unknown channel `"NoSuchChannel"`. -/
theorem unknown_identifier_handling_witness :
    markOperationRunning emptyReg "Grind" 1 = .error "map::at: out_of_range" ∧
    jointStateSample telemetry0 "NoSuchChannel" 1 2 3 =
      (telemetry0,
       [.errorLog ("jointStatesCallback: unsupported joint " ++ "NoSuchChannel")]) :=
  ⟨(unknown_identifier_handling.1 emptyReg "Grind" 1 rfl).1,
   unknown_identifier_handling.2 telemetry0 "NoSuchChannel" 1 2 3 rfl⟩

/-- C9: calling `markOperationFinished` on `"Dig"` while it is already idle
(`operationRunning` reports `false`) still emits `notify 42 true` — the
source guards the callback only on `id != IDLE_ID`, not on the operation
having been running, so the notifier is double-invoked, contrary to the
claim's at-most-once mandate. -/
theorem markOperationFinished_idle_notifies :
    operationRunning regDig "Dig" = .ok false ∧
    markOperationFinished regDig "Dig" 42 =
      .ok (Registry.set regDig "Dig" IDLE_ID,
           [.setState "Dig" IDLE_ID, .pub "Running" false "Dig",
            .pub "Finished" true "Dig", .notify 42 true]) ∧
    Action.notify 42 true ∈
      [Action.setState "Dig" IDLE_ID, Action.pub "Running" false "Dig",
       Action.pub "Finished" true "Dig", Action.notify 42 true] :=
  ⟨rfl, rfl, by decide⟩

/-- C10: `handle_overtorque` changes fault-set membership only at the
processed joint's PLEXIL name; distinct joints carry distinct PLEXIL names,
so one sample leaves every other channel's membership in both sets intact;
and the resulting fault state of an ingested sample depends only on its
effort component, never on position or velocity. -/
theorem handle_overtorque_frame :
    (∀ (s : TorqueState) (j : Joint) (e : ℚ) (q : String),
      q ≠ (JointPropMap j).plexilName →
      (handle_overtorque s j e).hard q = s.hard q ∧
      (handle_overtorque s j e).soft q = s.soft q) ∧
    (∀ j j2 : Joint, j ≠ j2 →
      (JointPropMap j).plexilName ≠ (JointPropMap j2).plexilName) ∧
    (∀ (ts : TelemetryState) (rosName : String) (p v e p2 v2 : ℚ),
      (jointStateSample ts rosName p v e).1.torque =
        (jointStateSample ts rosName p2 v2 e).1.torque) := by
  refine ⟨?_, by decide, ?_⟩
  · intro s j e q hq
    unfold handle_overtorque
    split_ifs <;> simp [SSet.insert, SSet.erase, hq]
  · intro ts rosName p v e p2 v2
    unfold jointStateSample
    cases h : JointMap rosName <;> simp

/-- C10 (witness): a hard overtorque sample on `shoulder_yaw` leaves
`"HandYaw"`'s hard membership unchanged, and the two joints' PLEXIL names
differ. -/
theorem handle_overtorque_frame_witness :
    (handle_overtorque torque0 .shoulder_yaw 85).hard "HandYaw" =
      torque0.hard "HandYaw" ∧
    (JointPropMap .shoulder_yaw).plexilName ≠ (JointPropMap .hand_yaw).plexilName :=
  ⟨(handle_overtorque_frame.1 torque0 .shoulder_yaw 85 "HandYaw" (by decide)).1,
   handle_overtorque_frame.2.1 .shoulder_yaw .hand_yaw (by decide)⟩

end OwAuto
